import Mathlib

/-!
Verification development for the dwm-libconfig runtime configuration parser
(parser.c).  The C sources are embedded shallowly: strings are lists of
characters, the libc lexers (strtol/strtoul/strtof) are modelled after the C
standard they implement, X11 keysym resolution and the libconfig document
reader are external collaborators and appear as explicit parameters or as an
abstract document structure.  Machine integers are modelled as Int/Nat with
explicit reductions modulo powers of two at the conversions where the C code
relies on them.
-/

set_option autoImplicit false

namespace DwmParser

/-! Character and string utilities used by parser.c. -/

/-- C isspace in the C locale: space, tab, newline, vertical tab, form feed,
carriage return. -/
def isSpaceChar (c : Char) : Bool :=
  c = ' ' || c = '\t' || c = '\n' || c = '\x0b' || c = '\x0c' || c = '\r'

/-- C tolower in the C locale (ASCII), as used by strcasecmp. -/
def toLowerAscii (c : Char) : Char :=
  if 'A' ≤ c && c ≤ 'Z' then Char.ofNat (c.toNat + 32) else c

/-- C strcasecmp(a, b) == 0: case-insensitive ASCII string equality. -/
def strCaseEq (a b : List Char) : Bool :=
  a.map toLowerAscii == b.map toLowerAscii

/-- Embeds _trim_whitespace of parser.c: removes leading and trailing
whitespace (performed in place in C; value-level here). -/
def trim_whitespace (s : List Char) : List Char :=
  ((s.dropWhile isSpaceChar).reverse.dropWhile isSpaceChar).reverse

/-- Raw chunks (possibly empty) of a character list between occurrences of the
delimiter character. -/
def splitOnChar (delim : Char) : List Char → List (List Char)
  | [] => [[]]
  | c :: rest =>
    let r := splitOnChar delim rest
    if c = delim then [] :: r
    else
      match r with
      | [] => [[c]]
      | h :: t => (c :: h) :: t

/-- Embeds repeated strtok(_, delim) calls: the maximal non-empty chunks
between delimiter characters, in order (strtok skips over runs of
delimiters and never yields an empty token). -/
def strtokTokens (delim : Char) (s : List Char) : List (List Char) :=
  (splitOnChar delim s).filter (fun t => !t.isEmpty)

/-! Models of the libc numeric lexers (external collaborators, modelled after
the C standard behavior the parser relies on). -/

/-- Accumulates leading decimal digits: value, digit count, and the rest. -/
def takeDigitsAux (acc count : Nat) : List Char → Nat × Nat × List Char
  | [] => (acc, count, [])
  | c :: rest =>
    if c.isDigit then takeDigitsAux (acc * 10 + (c.toNat - 48)) (count + 1) rest
    else (acc, count, c :: rest)

/-- Leading decimal digits of a string: value, digit count, rest. -/
def takeDigits (s : List Char) : Nat × Nat × List Char := takeDigitsAux 0 0 s

/-- Sign prefix of a numeric subject sequence: negativity flag and the rest. -/
def signSplit (s : List Char) : Bool × List Char :=
  match s with
  | '-' :: r => (true, r)
  | '+' :: r => (false, r)
  | _ => (false, s)

/-- Models C strtol(s, end, 10): skips leading whitespace and an optional
sign, then consumes decimal digits.  Returns the value and the unconsumed
suffix; when no digit is consumed the suffix is the whole input, as C resets
end to the start.  Saturation at LONG_MIN/LONG_MAX is not modelled because
every call site clamps the result into a range far inside the long range,
which makes saturation unobservable. -/
def strtolModel (s : List Char) : Int × List Char :=
  let afterWs := s.dropWhile isSpaceChar
  let sr := signSplit afterWs
  let (v, n, rest) := takeDigits sr.2
  if n = 0 then (0, s)
  else ((if sr.1 then -(v : Int) else (v : Int)), rest)

/-- ULONG_MAX on the LP64 targets dwm builds for. -/
def ulongMaxVal : Nat := 2 ^ 64 - 1

/-- Models C strtoul(s, end, 10): like strtolModel but a leading minus negates
modulo 2^64.  The boolean is false exactly when the digit string overflowed
(C then returns ULONG_MAX and sets errno to ERANGE). -/
def strtoulModel (s : List Char) : Nat × List Char × Bool :=
  let afterWs := s.dropWhile isSpaceChar
  let sr := signSplit afterWs
  let (v, n, rest) := takeDigits sr.2
  if n = 0 then (0, s, true)
  else if ulongMaxVal < v then (ulongMaxVal, rest, false)
  else ((if sr.1 then (2 ^ 64 - v % 2 ^ 64) % 2 ^ 64 else v), rest, true)

/-- Exponent part of strtofModel: consumed only when at least one digit
follows the exponent marker, otherwise the suffix before the marker stands. -/
def expPart (mant : Rat) (noExpRest r : List Char) : Rat × List Char :=
  let sr := signSplit r
  let (e, en, rest) := takeDigits sr.2
  if en = 0 then (mant, noExpRest)
  else (mant * (10 : Rat) ^ (if sr.1 then -(e : Int) else (e : Int)), rest)

/-- Models C strtof on decimal subject sequences: optional sign, digits with
an optional fraction, and an optional exponent.  Hexadecimal, infinity and
NaN forms are not modelled (no value in scope uses them).  Returns the exact
rational value and the unconsumed suffix; the suffix is the whole input when
no conversion is possible. -/
def strtofModel (s : List Char) : Rat × List Char :=
  let afterWs := s.dropWhile isSpaceChar
  let sr := signSplit afterWs
  let (ip, ipn, r1) := takeDigits sr.2
  let fr : Nat × Nat × List Char :=
    match r1 with
    | '.' :: r2 => takeDigits r2
    | _ => (0, 0, r1)
  let (fp, fpn, r3) := fr
  if ipn + fpn = 0 then (0, s)
  else
    let mant : Rat := (ip : Rat) + (fp : Rat) / ((10 : Rat) ^ fpn)
    let we : Rat × List Char :=
      match r3 with
      | 'e' :: r4 => expPart mant r3 r4
      | 'E' :: r4 => expPart mant r3 r4
      | _ => (mant, r3)
    ((if sr.1 then -we.1 else we.1), we.2)

/-! The clamping helpers generated by DEFINE_CLAMP_FUNCTION in parser.c.
Each returns the clamped value together with the number of warning
diagnostics (log_warn calls) it emitted. -/

/-- Embeds clamp_range_int / clamp_range_long of parser.c (signed instances of
DEFINE_CLAMP_FUNCTION). -/
def clamp_range_int (input mn mx : Int) : Int × Nat :=
  if input < mn then (mn, 1)
  else if input > mx then (mx, 1)
  else (input, 0)

/-- Embeds clamp_range_uint / clamp_range_ulong of parser.c (unsigned
instances of DEFINE_CLAMP_FUNCTION). -/
def clamp_range_uint (input mn mx : Nat) : Nat × Nat :=
  if input < mn then (mn, 1)
  else if input > mx then (mx, 1)
  else (input, 0)

/-- Embeds clamp_range_float of parser.c over exact rationals. -/
def clamp_range_float (input mn mx : Rat) : Rat × Nat :=
  if input < mn then (mn, 1)
  else if input > mx then (mx, 1)
  else (input, 0)

/-- C conversion of a signed int value to unsigned int (modulo 2^32). -/
def uintOfInt (i : Int) : Nat := (i % (2 ^ 32 : Int)).toNat

/-- C conversion of a signed long value to unsigned long (modulo 2^64). -/
def ulongOfInt (i : Int) : Nat := (i % (2 ^ 64 : Int)).toNat

/-- C cast of a long double to long: truncation toward zero. -/
def truncToInt (q : Rat) : Int := Int.tdiv q.num (q.den : Int)

/-! X11 and dwm constants used by the alias tables (fixed values from X.h and
dwm.c; X11 itself is an external collaborator). -/

/-- ShiftMask from X.h. -/
def shiftMaskVal : Nat := 1
/-- LockMask from X.h (capslock). -/
def lockMaskVal : Nat := 2
/-- ControlMask from X.h. -/
def controlMaskVal : Nat := 4
/-- Mod1Mask from X.h. -/
def mod1MaskVal : Nat := 8
/-- Mod2Mask from X.h. -/
def mod2MaskVal : Nat := 16
/-- Mod3Mask from X.h. -/
def mod3MaskVal : Nat := 32
/-- Mod4Mask from X.h. -/
def mod4MaskVal : Nat := 64
/-- Mod5Mask from X.h. -/
def mod5MaskVal : Nat := 128

/-- TAGMASK from dwm.c: (1 shifted left by LENGTH(tags)) - 1 with nine tags. -/
def tagmaskVal : Int := 511

/-- Click targets from dwm.c's enum: ClkTagBar, ClkLtSymbol, ClkStatusText,
ClkWinTitle, ClkClientWin, ClkRootWin. -/
def clkTagBarVal : Nat := 0
/-- ClkLtSymbol from dwm.c. -/
def clkLtSymbolVal : Nat := 1
/-- ClkStatusText from dwm.c. -/
def clkStatusTextVal : Nat := 2
/-- ClkWinTitle from dwm.c. -/
def clkWinTitleVal : Nat := 3
/-- ClkClientWin from dwm.c. -/
def clkClientWinVal : Nat := 4
/-- ClkRootWin from dwm.c. -/
def clkRootWinVal : Nat := 5

/-! Data model of the binding parser. -/

/-- Argument_Type enum of parser.c. -/
inductive Argument_Type where
  | ARG_TYPE_NONE
  | ARG_TYPE_INT
  | ARG_TYPE_UINT
  | ARG_TYPE_FLOAT
  | ARG_TYPE_POINTER
  deriving DecidableEq

/-- Dwm action handlers that the function alias table can name.  Their bodies
live in dwm.c outside the parser; only their identity matters here.
nullFunc stands for the zero-initialised function pointer of a failed bind. -/
inductive ActionFn where
  | focusmon | focusstack | incnmaster | killclient | movemouse | quit
  | resizemouse | setlayout_tiled | setlayout_floating | setlayout_monocle
  | setlayout | setmfact | spawn_simple | tag | tagmon | togglebar
  | togglefloating | toggletag | toggleview | view | zoom | nullFunc
  deriving DecidableEq

/-- Contents of the Arg union, tagged by what was stored. -/
inductive ArgVal where
  | none
  | int (i : Int)
  | uint (u : Nat)
  | float (f : Rat)
  | str (s : List Char)
  deriving DecidableEq

/-- Key struct of dwm, as populated by _parse_keybind. -/
structure Key where
  mod : Nat
  keysym : Nat
  func : ActionFn
  argument_type : Argument_Type
  arg : ArgVal
  deriving DecidableEq

/-- Button struct of dwm, as populated by _parse_buttonbind. -/
structure Button where
  click : Nat
  mask : Nat
  button : Nat
  func : ActionFn
  argument_type : Argument_Type
  arg : ArgVal
  deriving DecidableEq

/-- Failure causes of _parse_keybind / _parse_buttonbind: one constructor per
distinct log_error exit of the C functions. -/
inductive BindError where
  | invalidFormat
  | invalidFunction
  | invalidArgument
  | emptyModifierField
  | tooManyKeys
  | invalidModifier
  | invalidKeysym
  | invalidButton
  | invalidClick
  deriving DecidableEq

/-- Success test for an Except-valued parse. -/
def exceptOk {ε α : Type} : Except ε α → Bool
  | .ok _ => true
  | .error _ => false

/-! Alias tables of parser.c (static, case-insensitive). -/

/-- The modifier_alias_map of _parse_bind_modifier. -/
def modifier_alias_map : List (List Char × Nat) :=
  [("super".toList, mod4MaskVal),
   ("control".toList, controlMaskVal),
   ("ctrl".toList, controlMaskVal),
   ("shift".toList, shiftMaskVal),
   ("alt".toList, mod1MaskVal),
   ("caps".toList, lockMaskVal),
   ("capslock".toList, lockMaskVal),
   ("mod1".toList, mod1MaskVal),
   ("mod2".toList, mod2MaskVal),
   ("mod3".toList, mod3MaskVal),
   ("mod4".toList, mod4MaskVal),
   ("mod5".toList, mod5MaskVal)]

/-- The function_alias_map of _parse_bind_function: name, handler, declared
argument kind, declared range.  Entries with ARG_TYPE_NONE or
ARG_TYPE_POINTER leave their C range fields zero-initialised.  The float
literals -0.95 and 1.95 are modelled as exact rationals (the rounding of the
C float literals is unobservable in any property below). -/
def function_alias_map : List (List Char × ActionFn × Argument_Type × Rat × Rat) :=
  [("focusmon".toList, ActionFn.focusmon, .ARG_TYPE_INT, -99, 99),
   ("focusstack".toList, ActionFn.focusstack, .ARG_TYPE_INT, -99, 99),
   ("incnmaster".toList, ActionFn.incnmaster, .ARG_TYPE_INT, -99, 99),
   ("killclient".toList, ActionFn.killclient, .ARG_TYPE_NONE, 0, 0),
   ("movemouse".toList, ActionFn.movemouse, .ARG_TYPE_NONE, 0, 0),
   ("quit".toList, ActionFn.quit, .ARG_TYPE_NONE, 0, 0),
   ("resizemouse".toList, ActionFn.resizemouse, .ARG_TYPE_NONE, 0, 0),
   ("setlayout-tiled".toList, ActionFn.setlayout_tiled, .ARG_TYPE_NONE, 0, 0),
   ("setlayout-floating".toList, ActionFn.setlayout_floating, .ARG_TYPE_NONE, 0, 0),
   ("setlayout-monocle".toList, ActionFn.setlayout_monocle, .ARG_TYPE_NONE, 0, 0),
   ("setlayout-toggle".toList, ActionFn.setlayout, .ARG_TYPE_NONE, 0, 0),
   ("setmfact".toList, ActionFn.setmfact, .ARG_TYPE_FLOAT, -0.95, 1.95),
   ("spawn".toList, ActionFn.spawn_simple, .ARG_TYPE_POINTER, 0, 0),
   ("tag".toList, ActionFn.tag, .ARG_TYPE_INT, -1, (tagmaskVal : Rat)),
   ("tagmon".toList, ActionFn.tagmon, .ARG_TYPE_INT, -99, 99),
   ("togglebar".toList, ActionFn.togglebar, .ARG_TYPE_NONE, 0, 0),
   ("togglefloating".toList, ActionFn.togglefloating, .ARG_TYPE_NONE, 0, 0),
   ("toggletag".toList, ActionFn.toggletag, .ARG_TYPE_INT, -1, (tagmaskVal : Rat)),
   ("toggleview".toList, ActionFn.toggleview, .ARG_TYPE_INT, -1, (tagmaskVal : Rat)),
   ("view".toList, ActionFn.view, .ARG_TYPE_INT, -1, (tagmaskVal : Rat)),
   ("zoom".toList, ActionFn.zoom, .ARG_TYPE_NONE, 0, 0)]

/-- The button_alias_map of _parse_buttonbind_button (Button1..Button5). -/
def button_alias_map : List (List Char × Nat) :=
  [("leftclick".toList, 1),
   ("left-click".toList, 1),
   ("middleclick".toList, 2),
   ("middle-click".toList, 2),
   ("rightclick".toList, 3),
   ("right-click".toList, 3),
   ("scrollup".toList, 4),
   ("scroll-up".toList, 4),
   ("scrolldown".toList, 5),
   ("scroll-down".toList, 5)]

/-- The click_alias_map of _parse_buttonbind_click. -/
def click_alias_map : List (List Char × Nat) :=
  [("tag".toList, clkTagBarVal),
   ("layout".toList, clkLtSymbolVal),
   ("status".toList, clkStatusTextVal),
   ("title".toList, clkWinTitleVal),
   ("client".toList, clkClientWinVal),
   ("desktop".toList, clkRootWinVal)]

/-! The token-level resolvers of parser.c. -/

/-- Embeds _parse_bind_modifier: the loop scans the whole alias table without
breaking (the last match wins), then fails when no entry matched; on success
the mask is returned to be OR-ed into the bind's accumulated mask. -/
def parse_bind_modifier (modifier_string : List Char) : Option Nat :=
  let found := modifier_alias_map.foldl
    (fun acc e => if strCaseEq modifier_string e.1 then e.2 else acc) 0
  if found = 0 then Option.none else some found

/-- Embeds _parse_bind_function: the first case-insensitive match in the
function alias table yields the handler, argument kind and range. -/
def parse_bind_function (function_string : List Char) :
    Option (ActionFn × Argument_Type × Rat × Rat) :=
  (function_alias_map.find? (fun e => strCaseEq function_string e.1)).map (fun e => e.2)

/-- Embeds _parse_buttonbind_button: alias lookup first, otherwise strtoul
with the errno, full-consumption and 1..255 range checks of the C code. -/
def parse_buttonbind_button (button_string : List Char) : Option Nat :=
  match button_alias_map.find? (fun e => strCaseEq button_string e.1) with
  | some e => some e.2
  | Option.none =>
    let (v, rest, ok) := strtoulModel button_string
    if !ok || rest == button_string || !rest.isEmpty then Option.none
    else if v < 1 || 255 < v then Option.none
    else some v

/-- Embeds _parse_buttonbind_click: first case-insensitive match in the click
alias table. -/
def parse_buttonbind_click (click_string : List Char) : Option Nat :=
  (click_alias_map.find? (fun e => strCaseEq click_string e.1)).map (fun e => e.2)

/-- Embeds _parse_keybind_keysym over an abstract XStringToKeysym /
XConvertCase pair (X11 is an external collaborator): fails exactly when the
resolver returns NoSymbol (0); on success the keysym is replaced by its
XConvertCase lower-case form. -/
def parse_keybind_keysym (xStringToKeysym : List Char → Nat) (xLowerKeysym : Nat → Nat)
    (keysym_string : List Char) : Option Nat :=
  let k := xStringToKeysym keysym_string
  if k = 0 then Option.none else some (xLowerKeysym k)

/-- Embeds _parse_bind_argument of parser.c.  The argument is None when the
corresponding strtok call returned NULL.  Each numeric branch converts with
the libc lexer, clamps into the declared range (cast to the C integer types
exactly as the source does) and then rejects trailing characters. -/
def parse_bind_argument (argument_string : Option (List Char)) (arg_type : Argument_Type)
    (range_min range_max : Rat) : Option ArgVal :=
  match argument_string with
  | Option.none => Option.none
  | some s =>
    if s.isEmpty then Option.none
    else
      match arg_type with
      | .ARG_TYPE_INT =>
        let (v, rest) := strtolModel s
        let clamped := (clamp_range_int v (truncToInt range_min) (truncToInt range_max)).1
        if rest.isEmpty then some (ArgVal.int clamped) else Option.none
      | .ARG_TYPE_UINT =>
        let (v, rest, _) := strtoulModel s
        let clamped := (clamp_range_uint v (ulongOfInt (truncToInt range_min))
          (ulongOfInt (truncToInt range_max))).1
        if rest.isEmpty then some (ArgVal.uint clamped) else Option.none
      | .ARG_TYPE_FLOAT =>
        let (v, rest) := strtofModel s
        let clamped := (clamp_range_float v range_min range_max).1
        if rest.isEmpty then some (ArgVal.float clamped) else Option.none
      | .ARG_TYPE_POINTER => some (ArgVal.str s)
      | .ARG_TYPE_NONE => some ArgVal.none

/-- Argument step shared by _parse_keybind and _parse_buttonbind:
_parse_bind_argument is consulted only when the declared kind is not
ARG_TYPE_NONE; otherwise the zero-initialised Arg union stands. -/
def bind_argument_step (ty : Argument_Type) (argument_token : Option (List Char))
    (mn mx : Rat) : Option ArgVal :=
  if ty = .ARG_TYPE_NONE then some ArgVal.none
  else parse_bind_argument argument_token ty mn mx

/-! The shared modifier-chain machinery of _parse_keybind and
_parse_buttonbind. -/

/-- Embeds the modifier-splitting loop of _parse_keybind / _parse_buttonbind:
walks the strtok('+') chunks, collecting whitespace-trimmed non-empty tokens
while fewer than the budget (max_keys minus the count so far) have been
taken.  The second component is the chunk held in tmp_token when the loop
stopped with the count at max_keys, None when the chunks ran out first. -/
def split_modifier_tokens : Nat → List (List Char) → List (List Char) × Option (List Char)
  | _, [] => ([], Option.none)
  | 0, t :: _ => ([], some t)
  | b + 1, t :: rest =>
    let trimmed := trim_whitespace t
    if trimmed.isEmpty then split_modifier_tokens (b + 1) rest
    else
      let (l, lo) := split_modifier_tokens b rest
      (trimmed :: l, lo)

/-- Embeds the modifier-resolution loop: each resolved mask is OR-ed into the
accumulated mask (the bind's mask field starts zeroed by ecalloc), failing on
the first unresolvable name. -/
def resolve_modifier_chain : List (List Char) → Nat → Option Nat
  | [], acc => some acc
  | t :: rest, acc =>
    match parse_bind_modifier t with
    | Option.none => Option.none
    | some m => resolve_modifier_chain rest (acc ||| m)

/-- Embeds the shared preamble of _parse_keybind and _parse_buttonbind: the
line is snprintf-copied into a static 512-byte buffer, truncating it to its
first 511 characters, and then cut into comma-separated strtok tokens. -/
def bind_line_tokens (s : List Char) : List (List Char) :=
  strtokTokens ',' (s.take 511)

/-- Final stage of _parse_keybind: the keysym lookup result decides success. -/
def finish_keybind (f : ActionFn) (ty : Argument_Type) (arg : ArgVal) (mask : Nat)
    (ks : Option Nat) : Except BindError Key :=
  match ks with
  | Option.none => .error .invalidKeysym
  | some k => .ok ⟨mask, k, f, ty, arg⟩

/-- Embeds _parse_keybind on the comma-token list of the already-truncated
line.  The stage order follows the source: field presence, function,
argument, modifier-chain split and bounds, modifiers, keysym. -/
def parse_keybind_core (xk : List Char → Nat) (xl : Nat → Nat) (max_keys : Nat)
    (toks : List (List Char)) : Except BindError Key :=
  match toks[0]?, (toks[1]?).map trim_whitespace with
  | some modifier_token_list, some function_token =>
    if modifier_token_list.isEmpty || function_token.isEmpty then .error .invalidFormat
    else
      match parse_bind_function function_token with
      | Option.none => .error .invalidFunction
      | some (f, ty, mn, mx) =>
        match bind_argument_step ty ((toks[2]?).map trim_whitespace) mn mx with
        | Option.none => .error .invalidArgument
        | some arg =>
          let (mods, leftover) :=
            split_modifier_tokens max_keys (strtokTokens '+' modifier_token_list)
          if mods.length = 0 then .error .emptyModifierField
          else if mods.length = max_keys ∧ leftover.isSome then .error .tooManyKeys
          else
            match resolve_modifier_chain mods.dropLast 0 with
            | Option.none => .error .invalidModifier
            | some mask =>
              match mods.getLast? with
              | Option.none => .error .emptyModifierField
              | some trigger => finish_keybind f ty arg mask (parse_keybind_keysym xk xl trigger)
  | _, _ => .error .invalidFormat

/-- Embeds _parse_keybind of parser.c. -/
def parse_keybind (xk : List Char → Nat) (xl : Nat → Nat) (max_keys : Nat)
    (keybind_string : List Char) : Except BindError Key :=
  parse_keybind_core xk xl max_keys (bind_line_tokens keybind_string)

/-- Embeds _parse_buttonbind on the comma-token list of the truncated line.
The fields are (modifier chain, click, function, argument) and, unlike the
keybind parser, the modifier chain is split and bounds-checked before any
name resolution. -/
def parse_buttonbind_core (max_keys : Nat) (toks : List (List Char)) :
    Except BindError Button :=
  match toks[0]?, (toks[1]?).map trim_whitespace, (toks[2]?).map trim_whitespace with
  | some modifier_token_list, some click_token, some function_token =>
    if modifier_token_list.isEmpty || function_token.isEmpty || click_token.isEmpty then
      .error .invalidFormat
    else
      let (mods, leftover) :=
        split_modifier_tokens max_keys (strtokTokens '+' modifier_token_list)
      if mods.length = 0 then .error .emptyModifierField
      else if mods.length = max_keys ∧ leftover.isSome then .error .tooManyKeys
      else
        match resolve_modifier_chain mods.dropLast 0 with
        | Option.none => .error .invalidModifier
        | some mask =>
          match mods.getLast? with
          | Option.none => .error .emptyModifierField
          | some trigger =>
            match parse_buttonbind_button trigger with
            | Option.none => .error .invalidButton
            | some btn =>
              match parse_buttonbind_click click_token with
              | Option.none => .error .invalidClick
              | some clk =>
                match parse_bind_function function_token with
                | Option.none => .error .invalidFunction
                | some (f, ty, mn, mx) =>
                  match bind_argument_step ty ((toks[3]?).map trim_whitespace) mn mx with
                  | Option.none => .error .invalidArgument
                  | some arg => .ok ⟨clk, mask, btn, f, ty, arg⟩
  | _, _, _ => .error .invalidFormat

/-- Embeds _parse_buttonbind of parser.c. -/
def parse_buttonbind (max_keys : Nat) (buttonbind_string : List Char) :
    Except BindError Button :=
  parse_buttonbind_core max_keys (bind_line_tokens buttonbind_string)

/-! The value lookup adapter of parser.c.  libconfig itself is an external
collaborator: each wrapper receives the outcome of the underlying
config_lookup_* / config_setting_lookup_* call as an Option (None covers both
key-missing and wrong-type, which libconfig reports identically as
CONFIG_FALSE, leaving the output argument untouched).  Each wrapper returns
the C return code together with the destination value after the call. -/

/-- Embeds _libconfig_lookup_bool of parser.c. -/
def libconfig_lookup_bool (found : Option Bool) (optional : Bool) (parsed_value : Bool) :
    Int × Bool :=
  match found with
  | Option.none => if optional then (0, parsed_value) else (-1, parsed_value)
  | some v => (0, v)

/-- Embeds _libconfig_lookup_int of parser.c (lookup, then clamp into the
caller's range). -/
def libconfig_lookup_int (found : Option Int) (optional : Bool) (range_min range_max : Int)
    (parsed_value : Int) : Int × Int :=
  match found with
  | Option.none => if optional then (0, parsed_value) else (-1, parsed_value)
  | some v => (0, (clamp_range_int v range_min range_max).1)

/-- Embeds _libconfig_setting_lookup_int of parser.c (same logic over a
setting context). -/
def libconfig_setting_lookup_int (found : Option Int) (optional : Bool)
    (range_min range_max : Int) (parsed_value : Int) : Int × Int :=
  match found with
  | Option.none => if optional then (0, parsed_value) else (-1, parsed_value)
  | some v => (0, (clamp_range_int v range_min range_max).1)

/-- Embeds _libconfig_lookup_uint of parser.c: the int read by
config_lookup_int is converted to unsigned (modulo 2^32) before clamping. -/
def libconfig_lookup_uint (found : Option Int) (optional : Bool) (range_min range_max : Nat)
    (parsed_value : Nat) : Int × Nat :=
  match found with
  | Option.none => if optional then (0, parsed_value) else (-1, parsed_value)
  | some v => (0, (clamp_range_uint (uintOfInt v) range_min range_max).1)

/-- Embeds _libconfig_setting_lookup_uint of parser.c. -/
def libconfig_setting_lookup_uint (found : Option Int) (optional : Bool)
    (range_min range_max : Nat) (parsed_value : Nat) : Int × Nat :=
  match found with
  | Option.none => if optional then (0, parsed_value) else (-1, parsed_value)
  | some v => (0, (clamp_range_uint (uintOfInt v) range_min range_max).1)

/-- Embeds _libconfig_lookup_float of parser.c over exact rationals. -/
def libconfig_lookup_float (found : Option Rat) (optional : Bool) (range_min range_max : Rat)
    (parsed_value : Rat) : Int × Rat :=
  match found with
  | Option.none => if optional then (0, parsed_value) else (-1, parsed_value)
  | some v => (0, (clamp_range_float v range_min range_max).1)

/-- Embeds _libconfig_lookup_string / _libconfig_setting_lookup_string of
parser.c (the destination keeps its previous value on failure). -/
def libconfig_lookup_string (found : Option (List Char)) (optional : Bool)
    (parsed_value : Option (List Char)) : Int × Option (List Char) :=
  match found with
  | Option.none => if optional then (0, parsed_value) else (-1, parsed_value)
  | some v => (0, some v)

/-! Abstract parsed document (the contents the external libconfig reader
hands to the section parsers), with exactly the shapes parser.c consults. -/

/-- Per-rule sub-document: the six fields _parse_rule looks up; None is
key-missing-or-wrong-type.  The C field names class and instance are Lean
keywords and carry a rule_ prefix here. -/
structure RuleDoc where
  rule_class : Option (List Char)
  rule_instance : Option (List Char)
  rule_title : Option (List Char)
  tag_mask : Option Int
  monitor : Option Int
  floating : Option Int
  deriving DecidableEq

/-- Rule struct of dwm as filled by _parse_rule; None strings are the NULL
match-any sentinel. -/
structure Rule where
  rule_class : Option (List Char)
  rule_instance : Option (List Char)
  rule_title : Option (List Char)
  tags : Nat
  isfloating : Int
  monitor : Int
  deriving DecidableEq

/-- Theme sub-document: the seven optional string fields of one themes
element. -/
structure ThemeDoc where
  font : Option (List Char)
  normal_foreground : Option (List Char)
  normal_background : Option (List Char)
  normal_border : Option (List Char)
  selected_foreground : Option (List Char)
  selected_background : Option (List Char)
  selected_border : Option (List Char)
  deriving DecidableEq

/-- Destination of theme parsing: fonts[0] and the colors array of dwm. -/
structure Theme where
  font : List Char
  normal_foreground : List Char
  normal_background : List Char
  normal_border : List Char
  selected_foreground : List Char
  selected_background : List Char
  selected_border : List Char
  deriving DecidableEq

/-- Abstract parsed libconfig document. -/
structure Doc where
  bools : List (List Char × Bool)
  ints : List (List Char × Int)
  floats : List (List Char × Rat)
  keybinds : Option (List (List Char))
  buttonbinds : Option (List (List Char))
  rules : Option (List RuleDoc)
  tag_names : Option (List (Option (List Char)))
  themes : Option (List ThemeDoc)
  deriving DecidableEq

/-- Exact path lookup in one of the document's scalar maps. -/
def lookupPath {α : Type} (l : List (List Char × α)) (path : List Char) : Option α :=
  (l.find? (fun e => e.1 == path)).map (fun e => e.2)

/-! Section parsers. -/

/-- Destination globals of _parse_generic_settings (their initial values come
from config.h). -/
structure GenericSettings where
  showbar : Bool
  topbar : Bool
  resizehints : Bool
  lockfullscreen : Bool
  borderpx : Nat
  snap : Nat
  nmaster : Nat
  refreshrate : Nat
  mfact : Rat
  deriving DecidableEq

/-- Embeds _parse_generic_settings: drives the setting_map table through the
lookup adapter.  Every table entry is optional; each lookup's return code is
subtracted into the failure count exactly as the C loop does.  Returns the
failure count, the updated settings and the updated max_keys. -/
def parse_generic_settings (doc : Doc) (gs : GenericSettings) (max_keys : Nat) :
    Int × GenericSettings × Nat :=
  let r1 := libconfig_lookup_bool (lookupPath doc.bools ("showbar".toList)) true gs.showbar
  let r2 := libconfig_lookup_bool (lookupPath doc.bools ("topbar".toList)) true gs.topbar
  let r3 := libconfig_lookup_bool (lookupPath doc.bools ("resizehints".toList)) true gs.resizehints
  let r4 := libconfig_lookup_bool (lookupPath doc.bools ("lockfullscreen".toList)) true
    gs.lockfullscreen
  let r5 := libconfig_lookup_uint (lookupPath doc.ints ("borderpx".toList)) true 0 9999 gs.borderpx
  let r6 := libconfig_lookup_uint (lookupPath doc.ints ("snap".toList)) true 0 9999 gs.snap
  let r7 := libconfig_lookup_uint (lookupPath doc.ints ("nmaster".toList)) true 0 99 gs.nmaster
  let r8 := libconfig_lookup_uint (lookupPath doc.ints ("refreshrate".toList)) true 0 999
    gs.refreshrate
  let r9 := libconfig_lookup_float (lookupPath doc.floats ("mfact".toList)) true 0.05 0.95 gs.mfact
  let r10 := libconfig_lookup_uint (lookupPath doc.ints ("max-keys".toList)) true 1 10 max_keys
  (0 - (r1.1 + r2.1 + r3.1 + r4.1 + r5.1 + r6.1 + r7.1 + r8.1 + r9.1 + r10.1),
   ⟨r1.2, r2.2, r3.2, r4.2, r5.2, r6.2, r7.2, r8.2, r9.2⟩, r10.2)

/-- Zero-initialised Key (the ecalloc-ed slot), with a NULL function
pointer.  A failed keybind slot keeps this shape with keysym = NoSymbol (0),
which is the only field dwm's dispatch inspects on failed binds. -/
def zeroKey : Key := ⟨0, 0, .nullFunc, .ARG_TYPE_NONE, ArgVal.none⟩

/-- Zero-initialised Button; a failed buttonbind slot keeps button = 0. -/
def zeroButton : Button := ⟨0, 0, 0, .nullFunc, .ARG_TYPE_NONE, ArgVal.none⟩

/-- Embeds _parse_keybinds_config: a missing keybinds setting keeps the
defaults and contributes no failure; a present but empty list returns one
failure without replacing the defaults; otherwise every element is parsed
into a fresh array (default_keybinds_loaded becomes false) and each failed
element counts one failure, its slot keeping the NoSymbol sentinel.
Returns (failures, keybind array, default_keybinds_loaded, keybinds count). -/
def parse_keybinds_config (xk : List Char → Nat) (xl : Nat → Nat) (doc : Doc)
    (max_keys : Nat) (keybind_array : List Key) (default_keybinds_loaded : Bool)
    (keybinds_count : Nat) : Nat × List Key × Bool × Nat :=
  match doc.keybinds with
  | Option.none => (0, keybind_array, default_keybinds_loaded, keybinds_count)
  | some l =>
    if l.length = 0 then (1, keybind_array, default_keybinds_loaded, 0)
    else
      let parsed := l.map (fun s => parse_keybind xk xl max_keys s)
      let arr := parsed.map (fun r =>
        match r with
        | .ok k => k
        | .error _ => zeroKey)
      let failed := (parsed.filter (fun r => !exceptOk r)).length
      (failed, arr, false, l.length)

/-- Embeds _parse_buttonbinds_config, the buttonbind analogue of
parse_keybinds_config (failed slots keep button = 0). -/
def parse_buttonbinds_config (doc : Doc) (max_keys : Nat) (buttonbind_array : List Button)
    (default_buttonbinds_loaded : Bool) (buttonbind_count : Nat) :
    Nat × List Button × Bool × Nat :=
  match doc.buttonbinds with
  | Option.none => (0, buttonbind_array, default_buttonbinds_loaded, buttonbind_count)
  | some l =>
    if l.length = 0 then (1, buttonbind_array, default_buttonbinds_loaded, 0)
    else
      let parsed := l.map (fun s => parse_buttonbind max_keys s)
      let arr := parsed.map (fun r =>
        match r with
        | .ok b => b
        | .error _ => zeroButton)
      let failed := (parsed.filter (fun r => !exceptOk r)).length
      (failed, arr, false, l.length)

/-- Embeds _parse_rule_string: a required string lookup whose result is
normalised so that the case-insensitive value NULL becomes the match-any
sentinel.  The outer None is the -1 failure return. -/
def parse_rule_string (field : Option (List Char)) : Option (Option (List Char)) :=
  match field with
  | Option.none => Option.none
  | some s => if strCaseEq s ("NULL".toList) then some Option.none else some (some s)

/-- Embeds _parse_rule: six independent required lookups (failures counted
per field, not per rule), over the sane defaults the caller pre-seeded. -/
def parse_rule (rd : RuleDoc) : Nat × Rule :=
  let c := parse_rule_string rd.rule_class
  let i := parse_rule_string rd.rule_instance
  let t := parse_rule_string rd.rule_title
  let tm := libconfig_setting_lookup_uint rd.tag_mask false 0 (uintOfInt tagmaskVal) 0
  let mo := libconfig_setting_lookup_int rd.monitor false (-1) 99 (-1)
  let fl := libconfig_setting_lookup_int rd.floating false 0 1 0
  ((if c.isNone then 1 else 0) + (if i.isNone then 1 else 0) + (if t.isNone then 1 else 0) +
     (if tm.1 = -1 then 1 else 0) + (if mo.1 = -1 then 1 else 0) + (if fl.1 = -1 then 1 else 0),
   ⟨c.getD Option.none, i.getD Option.none, t.getD Option.none, tm.2, fl.2, mo.2⟩)

/-- Embeds _parse_rules_config: a missing rules setting is one failure and
keeps the defaults; an empty list is no failure; otherwise each element is
parsed with per-field failure counting.
Returns (failures, rule array, default_rules_loaded, rules count). -/
def parse_rules_config (doc : Doc) (rule_array : List Rule) (default_rules_loaded : Bool)
    (rules_count : Nat) : Nat × List Rule × Bool × Nat :=
  match doc.rules with
  | Option.none => (1, rule_array, default_rules_loaded, rules_count)
  | some l =>
    if l.length = 0 then (0, rule_array, default_rules_loaded, 0)
    else
      let parsed := l.map parse_rule
      ((parsed.map (fun p => p.1)).sum, parsed.map (fun p => p.2), false, l.length)

/-- Embeds _parse_tags_config over the 9-slot tags array: a missing tag-names
setting is one failure; an empty list none; otherwise the first
min(count, 9) names overwrite the default slots, each non-string element
counting one failure and keeping its default slot. -/
def parse_tags_config (doc : Doc) (tags : List (List Char)) : Nat × List (List Char) :=
  match doc.tag_names with
  | Option.none => (1, tags)
  | some l =>
    if l.length = 0 then (0, tags)
    else
      let names := l.take 9
      let failures := (names.filter (fun o => o.isNone)).length
      let newTags := (List.range tags.length).map (fun i =>
        match names[i]? with
        | some (some name) => name
        | _ => tags.getD i [])
      (failures, newTags)

/-- Embeds _parse_theme: each of the seven optional-string fields replaces
its default on success and otherwise counts one failure. -/
def parse_theme (td : ThemeDoc) (th : Theme) : Nat × Theme :=
  let s1 := libconfig_lookup_string td.font false (some th.font)
  let s2 := libconfig_lookup_string td.normal_foreground false (some th.normal_foreground)
  let s3 := libconfig_lookup_string td.normal_background false (some th.normal_background)
  let s4 := libconfig_lookup_string td.normal_border false (some th.normal_border)
  let s5 := libconfig_lookup_string td.selected_foreground false (some th.selected_foreground)
  let s6 := libconfig_lookup_string td.selected_background false (some th.selected_background)
  let s7 := libconfig_lookup_string td.selected_border false (some th.selected_border)
  ((if s1.1 = 0 then 0 else 1) + (if s2.1 = 0 then 0 else 1) + (if s3.1 = 0 then 0 else 1) +
     (if s4.1 = 0 then 0 else 1) + (if s5.1 = 0 then 0 else 1) + (if s6.1 = 0 then 0 else 1) +
     (if s7.1 = 0 then 0 else 1),
   ⟨(s1.2).getD th.font, (s2.2).getD th.normal_foreground, (s3.2).getD th.normal_background,
    (s4.2).getD th.normal_border, (s5.2).getD th.selected_foreground,
    (s6.2).getD th.selected_background, (s7.2).getD th.selected_border⟩)

/-- Embeds _parse_theme_config: a missing themes setting is one failure, an
empty list none, and only the first theme element is consulted even when
more are present. -/
def parse_theme_config (doc : Doc) (th : Theme) : Nat × Theme :=
  match doc.themes with
  | Option.none => (1, th)
  | some [] => (0, th)
  | some (td :: _) => parse_theme td th

/-! The config resolution chain (_open_config) and the top-level entry point
(parse_config). -/

/-- Outcome of probing one candidate path: fopen fails, fopen succeeds but
config_read fails, or the file opens and parses to a document. -/
inductive FileOutcome where
  | cannotOpen
  | openNoParse
  | openParse (doc : Doc)
  deriving DecidableEq

/-- Environment consumed by _open_config (external collaborators: the CLI
path, the XDG directory resolution, the filesystem). -/
structure OpenEnv where
  config_filepath : Option (List Char)
  xdg_config_home : Option (List Char)
  xdg_data_home : Option (List Char)
  fileStatus : List Char → FileOutcome

/-- Candidate config paths, built in the fixed probe order of _open_config:
CLI path, config-home/dwm.conf, config-home/dwm/dwm.conf, the
data-home/dwm/dwm_last.conf backup, then /etc/dwm/dwm.conf.  A candidate
whose directory could not be resolved is simply absent. -/
def config_filepaths (env : OpenEnv) : List (List Char) :=
  (match env.config_filepath with
   | some p => [p]
   | Option.none => []) ++
  (match env.xdg_config_home with
   | some d => [d ++ ("/dwm.conf".toList)]
   | Option.none => []) ++
  (match env.xdg_config_home with
   | some d => [d ++ ("/dwm/dwm.conf".toList)]
   | Option.none => []) ++
  (match env.xdg_data_home with
   | some d => [d ++ ("/dwm/dwm_last.conf".toList)]
   | Option.none => []) ++
  [("/etc/dwm/dwm.conf".toList)]

/-- First candidate that both opens and parses, with its parsed document
(the loop of _open_config returns as soon as config_read succeeds). -/
def first_openable (fs : List Char → FileOutcome) : List (List Char) → Option (List Char × Doc)
  | [] => Option.none
  | p :: rest =>
    match fs p with
    | .openParse d => some (p, d)
    | _ => first_openable fs rest

/-- Number of candidates on which fopen is attempted: the loop probes the
candidates in order and stops at the first that opens and parses. -/
def probed_count (fs : List Char → FileOutcome) : List (List Char) → Nat
  | [] => 0
  | p :: rest =>
    match fs p with
    | .openParse _ => 1
    | _ => 1 + probed_count fs rest

/-- Result of _open_config.  noConfig is the -1 return (no candidate opened
and parsed).  opened carries the winning path, the fallback_config_loaded
flag and the parsed document.  nullBackupCompare marks the inputs on which
the C function has no defined result: a candidate won while the data
directory was unresolvable, so config_backup is still NULL and the
strcmp(winning path, config_backup) of the provenance check dereferences a
NULL pointer (undefined behavior); the model assigns no outcome there. -/
inductive OpenResult where
  | noConfig
  | opened (path : List Char) (fallback_config_loaded : Bool) (doc : Doc)
  | nullBackupCompare (path : List Char) (doc : Doc)
  deriving DecidableEq

/-- True when the probe loop found a candidate that opened and parsed (the
loop left its body through the success exit), whatever happens afterwards. -/
def OpenResult.isSome : OpenResult → Bool
  | .noConfig => false
  | .opened _ _ _ => true
  | .nullBackupCompare _ _ => true

/-- Embeds _open_config: the first candidate that both opens and parses
wins; its path is recorded and the fallback flag is set exactly when that
path strcmp-equals the backup candidate or the system fallback path.  When
no data directory exists the backup candidate string is NULL and the strcmp
against it is undefined behavior, reported as nullBackupCompare rather than
as a fabricated flag value. -/
def open_config (env : OpenEnv) : OpenResult :=
  match first_openable env.fileStatus (config_filepaths env) with
  | Option.none => .noConfig
  | some (p, d) =>
    match env.xdg_data_home with
    | some dir =>
      .opened p (p == dir ++ ("/dwm/dwm_last.conf".toList) ||
        p == ("/etc/dwm/dwm.conf".toList)) d
    | Option.none => .nullBackupCompare p d

/-- Hardcoded defaults from config.h, loaded by _load_default_config before
any parsing (their concrete values live outside parser.c). -/
structure Defaults where
  settings : GenericSettings
  keybinds : List Key
  buttonbinds : List Button
  rules : List Rule
  tags : List (List Char)
  theme : Theme

/-- State produced by the six section-parser calls of parse_config, with the
accumulated total_errors. -/
structure SectionResult where
  total_errors : Int
  settings : GenericSettings
  max_keys : Nat
  keybind_array : List Key
  default_keybinds_loaded : Bool
  buttonbind_array : List Button
  default_buttonbinds_loaded : Bool
  rule_array : List Rule
  default_rules_loaded : Bool
  tags : List (List Char)
  theme : Theme

/-- The section-parsing pipeline of parse_config, run in source order on the
parsed document: generic settings (which produce the max_keys bound), then
keybinds, buttonbinds, rules, tags and theme, summing the failures. -/
def parse_sections (xk : List Char → Nat) (xl : Nat → Nat) (doc : Doc) (d : Defaults) :
    SectionResult :=
  let g := parse_generic_settings doc d.settings 4
  let k := parse_keybinds_config xk xl doc g.2.2 d.keybinds true 0
  let b := parse_buttonbinds_config doc g.2.2 d.buttonbinds true 0
  let r := parse_rules_config doc d.rules true 0
  let t := parse_tags_config doc d.tags
  let th := parse_theme_config doc d.theme
  ⟨g.1 + (k.1 : Int) + (b.1 : Int) + (r.1 : Int) + (t.1 : Int) + (th.1 : Int),
   g.2.1, g.2.2, k.2.1, k.2.2.1, b.2.1, b.2.2.1, r.2.1, r.2.2.1, t.2, th.2⟩

/-- Result of parse_config: the return value, whether _backup_config was
invoked, and the resulting Configuration state. -/
structure ParseOutcome where
  ret : Int
  backupAttempted : Bool
  fallback_config_loaded : Bool
  default_keybinds_loaded : Bool
  default_buttonbinds_loaded : Bool
  default_rules_loaded : Bool
  config_filepath : Option (List Char)
  settings : GenericSettings
  max_keys : Nat
  keybind_array : List Key
  buttonbind_array : List Button
  rule_array : List Rule
  tags : List (List Char)
  theme : Theme

/-- Embeds parse_config of parser.c: load the hardcoded defaults, resolve and
read a config file (returning -1 when none loads), run the section parsers,
and attempt the backup exactly when the total failure count is zero and
neither the default keybinds, nor the default buttonbinds, nor a fallback
config are in use.  The return value is the accumulated failure total.  On
the nullBackupCompare inputs the C program has no defined behavior (it
dereferences a NULL pointer inside _open_config before parsing anything), so
the model yields no outcome (None) there. -/
def parse_config (xk : List Char → Nat) (xl : Nat → Nat) (env : OpenEnv) (d : Defaults) :
    Option ParseOutcome :=
  match open_config env with
  | .noConfig =>
    some ⟨-1, false, false, true, true, true, Option.none, d.settings, 4, d.keybinds,
      d.buttonbinds, d.rules, d.tags, d.theme⟩
  | .nullBackupCompare _ _ => Option.none
  | .opened path fallback doc =>
    let s := parse_sections xk xl doc d
    let backup := s.total_errors == 0 &&
      !(s.default_keybinds_loaded || s.default_buttonbinds_loaded || fallback)
    some ⟨s.total_errors, backup, fallback, s.default_keybinds_loaded,
      s.default_buttonbinds_loaded, s.default_rules_loaded, some path, s.settings, s.max_keys,
      s.keybind_array, s.buttonbind_array, s.rule_array, s.tags, s.theme⟩

/-! Helper lemmas (shared). -/

/-- An optional boolean lookup never contributes a failure. -/
theorem libconfig_lookup_bool_optional_fst (f : Option Bool) (dv : Bool) :
    (libconfig_lookup_bool f true dv).1 = 0 := by
  cases f <;> rfl

/-- An optional unsigned lookup never contributes a failure. -/
theorem libconfig_lookup_uint_optional_fst (f : Option Int) (mn mx dv : Nat) :
    (libconfig_lookup_uint f true mn mx dv).1 = 0 := by
  cases f <;> rfl

/-- An optional float lookup never contributes a failure. -/
theorem libconfig_lookup_float_optional_fst (f : Option Rat) (mn mx dv : Rat) :
    (libconfig_lookup_float f true mn mx dv).1 = 0 := by
  cases f <;> rfl

/-- Every entry of the generic-settings table is optional, so the section
never accumulates failures. -/
theorem parse_generic_settings_failures (doc : Doc) (gs : GenericSettings) (mk : Nat) :
    (parse_generic_settings doc gs mk).1 = 0 := by
  unfold parse_generic_settings
  simp [libconfig_lookup_bool_optional_fst, libconfig_lookup_uint_optional_fst,
    libconfig_lookup_float_optional_fst]

/-- The total failure count of the section pipeline is never negative. -/
theorem parse_sections_total_errors_nonneg (xk : List Char → Nat) (xl : Nat → Nat)
    (doc : Doc) (d : Defaults) : 0 ≤ (parse_sections xk xl doc d).total_errors := by
  unfold parse_sections
  simp only []
  rw [parse_generic_settings_failures]
  positivity

/-! C7: clamping. -/

/-- C7: clamping is idempotent.  For each clamp instance generated by
DEFINE_CLAMP_FUNCTION (signed, unsigned, float) with inclusive bounds
min ≤ max: an in-range input is returned unchanged with no diagnostic; an
input below the range returns exactly min, an input above returns exactly
max, each with exactly one warning diagnostic; re-clamping a clamped value
returns it unchanged with no diagnostic, hence clamp(clamp(x)) = clamp(x). -/
theorem clamp_range_idempotent (x mn mx : Int) (u umn umx : Nat) (q qmn qmx : Rat)
    (h : mn ≤ mx) (hu : umn ≤ umx) (hq : qmn ≤ qmx) :
    ((mn ≤ x ∧ x ≤ mx → clamp_range_int x mn mx = (x, 0)) ∧
     (x < mn → clamp_range_int x mn mx = (mn, 1)) ∧
     (mx < x → clamp_range_int x mn mx = (mx, 1)) ∧
     clamp_range_int (clamp_range_int x mn mx).1 mn mx = ((clamp_range_int x mn mx).1, 0)) ∧
    ((umn ≤ u ∧ u ≤ umx → clamp_range_uint u umn umx = (u, 0)) ∧
     (u < umn → clamp_range_uint u umn umx = (umn, 1)) ∧
     (umx < u → clamp_range_uint u umn umx = (umx, 1)) ∧
     clamp_range_uint (clamp_range_uint u umn umx).1 umn umx =
       ((clamp_range_uint u umn umx).1, 0)) ∧
    ((qmn ≤ q ∧ q ≤ qmx → clamp_range_float q qmn qmx = (q, 0)) ∧
     (q < qmn → clamp_range_float q qmn qmx = (qmn, 1)) ∧
     (qmx < q → clamp_range_float q qmn qmx = (qmx, 1)) ∧
     clamp_range_float (clamp_range_float q qmn qmx).1 qmn qmx =
       ((clamp_range_float q qmn qmx).1, 0)) := by
  unfold clamp_range_int clamp_range_uint clamp_range_float
  refine ⟨⟨?_, ?_, ?_, ?_⟩, ⟨?_, ?_, ?_, ?_⟩, ⟨?_, ?_, ?_, ?_⟩⟩ <;>
    first
      | (intro hh; split_ifs <;> first | rfl | omega | (exfalso; push_neg at *; linarith))
      | (split_ifs <;> simp_all <;> first | omega | linarith)

/-- C7 witness: the theorem applied at concrete bounds and inputs. -/
theorem clamp_range_idempotent_witness :
    ((-1 : Int) ≤ 511 ∧ (0 : Nat) ≤ 9999 ∧ (-0.95 : Rat) ≤ 1.95) ∧
    (clamp_range_int 600 (-1) 511 = (511, 1) ∧
     clamp_range_int (clamp_range_int 600 (-1) 511).1 (-1) 511 =
       ((clamp_range_int 600 (-1) 511).1, 0)) :=
  ⟨⟨by norm_num, by norm_num, by norm_num⟩,
   (clamp_range_idempotent 600 (-1) 511 5 0 9999 0 (-0.95) 1.95 (by norm_num) (by norm_num)
      (by norm_num)).1.2.2.1 (by norm_num),
   (clamp_range_idempotent 600 (-1) 511 5 0 9999 0 (-0.95) 1.95 (by norm_num) (by norm_num)
      (by norm_num)).1.2.2.2⟩

/-! C8: the typed lookup adapter on missing-or-wrong-type keys. -/

/-- C8: when the underlying libconfig lookup fails (key missing or of the
wrong type), the bool, int and uint adapters return 0 (absent, no error)
when optional and -1 (error) when required, and in both cases the caller's
destination value is left unchanged. -/
theorem lookup_missing_or_wrong_type_behavior (fb : Option Bool) (fi fu : Option Int)
    (mn mx : Int) (umn umx : Nat) (db : Bool) (di : Int) (du : Nat)
    (hb : fb = Option.none) (hi : fi = Option.none) (hu : fu = Option.none) :
    (libconfig_lookup_bool fb true db = (0, db) ∧
     libconfig_lookup_bool fb false db = (-1, db)) ∧
    (libconfig_lookup_int fi true mn mx di = (0, di) ∧
     libconfig_lookup_int fi false mn mx di = (-1, di)) ∧
    (libconfig_lookup_uint fu true umn umx du = (0, du) ∧
     libconfig_lookup_uint fu false umn umx du = (-1, du)) := by
  subst hb hi hu
  exact ⟨⟨rfl, rfl⟩, ⟨rfl, rfl⟩, ⟨rfl, rfl⟩⟩

/-- C8 witness: the theorem applied at concrete destinations. -/
theorem lookup_missing_or_wrong_type_behavior_witness :
    (libconfig_lookup_bool Option.none true true = (0, true) ∧
     libconfig_lookup_bool Option.none false true = (-1, true)) ∧
    (libconfig_lookup_int Option.none true 0 99 7 = (0, 7) ∧
     libconfig_lookup_int Option.none false 0 99 7 = (-1, 7)) ∧
    (libconfig_lookup_uint Option.none true 1 10 4 = (0, 4) ∧
     libconfig_lookup_uint Option.none false 1 10 4 = (-1, 4)) :=
  lookup_missing_or_wrong_type_behavior Option.none Option.none Option.none 0 99 1 10 true 7 4
    rfl rfl rfl

/-! C9: binding lines are truncated to 511 characters before tokenization. -/

/-- C9: both bind parsers copy the line into a fixed 512-byte buffer with a
length-bounded copy before tokenizing, so a line of 512 or more characters
parses exactly as its first 511 characters do: the excess is silently
truncated, not rejected. -/
theorem bind_parse_truncates_at_511 (xk : List Char → Nat) (xl : Nat → Nat) (mk : Nat)
    (s : List Char) (_h : 512 ≤ s.length) :
    parse_keybind xk xl mk s = parse_keybind xk xl mk (s.take 511) ∧
    parse_buttonbind mk s = parse_buttonbind mk (s.take 511) := by
  unfold parse_keybind parse_buttonbind bind_line_tokens
  rw [List.take_take]
  norm_num

/-- C9 witness: the theorem applied to a 600-character line. -/
theorem bind_parse_truncates_at_511_witness :
    512 ≤ (List.replicate 600 'a').length ∧
    parse_keybind (fun _ => 0) (fun k => k) 4 (List.replicate 600 'a') =
      parse_keybind (fun _ => 0) (fun k => k) 4 ((List.replicate 600 'a').take 511) :=
  ⟨by rw [List.length_replicate]; norm_num,
   (bind_parse_truncates_at_511 (fun _ => 0) (fun k => k) 4 (List.replicate 600 'a')
      (by rw [List.length_replicate]; norm_num)).1⟩

/-! C10: missing vs empty bind sections. -/

/-- C10: the keybind-list parser treats a missing section and an empty
section asymmetrically: an absent keybinds setting contributes 0 failures
and leaves the default keybinds loaded, while a present but empty list
returns 1 failure (still without replacing the defaults); the button-bind
parser behaves the same way. -/
theorem binds_config_missing_vs_empty (xk : List Char → Nat) (xl : Nat → Nat)
    (mk cnt bcnt : Nat) (arr : List Key) (barr : List Button) (dflt bdflt : Bool)
    (dAbsent dEmpty : Doc)
    (h1 : dAbsent.keybinds = Option.none) (h2 : dEmpty.keybinds = some [])
    (h3 : dAbsent.buttonbinds = Option.none) (h4 : dEmpty.buttonbinds = some []) :
    parse_keybinds_config xk xl dAbsent mk arr dflt cnt = (0, arr, dflt, cnt) ∧
    parse_keybinds_config xk xl dEmpty mk arr dflt cnt = (1, arr, dflt, 0) ∧
    parse_buttonbinds_config dAbsent mk barr bdflt bcnt = (0, barr, bdflt, bcnt) ∧
    parse_buttonbinds_config dEmpty mk barr bdflt bcnt = (1, barr, bdflt, 0) := by
  refine ⟨?_, ?_, ?_, ?_⟩
  · simp [parse_keybinds_config, h1]
  · simp [parse_keybinds_config, h2]
  · simp [parse_buttonbinds_config, h3]
  · simp [parse_buttonbinds_config, h4]

/-- Document with no keybinds and no buttonbinds settings. -/
def docSectionsAbsent : Doc :=
  ⟨[], [], [], Option.none, Option.none, Option.none, Option.none, Option.none⟩

/-- Document with present but empty keybinds and buttonbinds lists. -/
def docSectionsEmpty : Doc :=
  ⟨[], [], [], some [], some [], Option.none, Option.none, Option.none⟩

/-- C10 witness: the theorem applied to concrete documents. -/
theorem binds_config_missing_vs_empty_witness :
    parse_keybinds_config (fun _ => 0) (fun k => k) docSectionsAbsent 4 [] true 3 =
      (0, [], true, 3) ∧
    parse_keybinds_config (fun _ => 0) (fun k => k) docSectionsEmpty 4 [] true 3 =
      (1, [], true, 0) :=
  ⟨(binds_config_missing_vs_empty (fun _ => 0) (fun k => k) 4 3 2 [] [] true true
      docSectionsAbsent docSectionsEmpty rfl rfl rfl rfl).1,
   (binds_config_missing_vs_empty (fun _ => 0) (fun k => k) 4 3 2 [] [] true true
      docSectionsAbsent docSectionsEmpty rfl rfl rfl rfl).2.1⟩

/-! C4: the resolution chain probes in order and stops at the first winner. -/

/-- If some list element opens and parses, the probe loop attempts fopen on
at most the elements up to and including it. -/
theorem probed_count_le_of_winner (fs : List Char → FileOutcome) (l : List (List Char)) :
    ∀ (i : Nat) (p : List Char) (d : Doc), l[i]? = some p → fs p = .openParse d →
      probed_count fs l ≤ i + 1 := by
  induction l with
  | nil => intro i p d hp _; simp at hp
  | cons q rest ih =>
    intro i p d hp ho
    cases hq : fs q with
    | openParse d2 => simp [probed_count, hq]
    | cannotOpen =>
      cases i with
      | zero =>
        simp at hp
        rw [hp] at hq
        rw [hq] at ho
        exact absurd ho (by simp)
      | succ j =>
        simp only [List.getElem?_cons_succ] at hp
        have := ih j p d hp ho
        simp [probed_count, hq]
        omega
    | openNoParse =>
      cases i with
      | zero =>
        simp at hp
        rw [hp] at hq
        rw [hq] at ho
        exact absurd ho (by simp)
      | succ j =>
        simp only [List.getElem?_cons_succ] at hp
        have := ih j p d hp ho
        simp [probed_count, hq]
        omega

/-- If some list element opens and parses, the loop finds a winner. -/
theorem first_openable_isSome_of_winner (fs : List Char → FileOutcome) (l : List (List Char)) :
    ∀ (i : Nat) (p : List Char) (d : Doc), l[i]? = some p → fs p = .openParse d →
      (first_openable fs l).isSome = true := by
  induction l with
  | nil => intro i p d hp _; simp at hp
  | cons q rest ih =>
    intro i p d hp ho
    cases hq : fs q with
    | openParse d2 => simp [first_openable, hq]
    | cannotOpen =>
      cases i with
      | zero =>
        simp at hp; rw [hp] at hq; rw [hq] at ho; exact absurd ho (by simp)
      | succ j =>
        simp only [List.getElem?_cons_succ] at hp
        simpa [first_openable, hq] using ih j p d hp ho
    | openNoParse =>
      cases i with
      | zero =>
        simp at hp; rw [hp] at hq; rw [hq] at ho; exact absurd ho (by simp)
      | succ j =>
        simp only [List.getElem?_cons_succ] at hp
        simpa [first_openable, hq] using ih j p d hp ho

/-- C4: _open_config builds its candidate list in the fixed order (CLI path,
config-home/dwm.conf, config-home/dwm/dwm.conf, data-home backup, system
fallback) and probes it in order, stopping at the first candidate that both
opens and parses: when candidate i opens and parses, fopen is attempted on
at most the first i+1 candidates, so no candidate after i is ever opened,
and the chain reports success. -/
theorem open_config_probes_stop_at_winner (env : OpenEnv) (i : Nat) (p : List Char) (d : Doc)
    (hp : (config_filepaths env)[i]? = some p)
    (ho : env.fileStatus p = .openParse d) :
    probed_count env.fileStatus (config_filepaths env) ≤ i + 1 ∧
    (open_config env).isSome = true := by
  constructor
  · exact probed_count_le_of_winner env.fileStatus (config_filepaths env) i p d hp ho
  · have hs := first_openable_isSome_of_winner env.fileStatus (config_filepaths env) i p d hp ho
    unfold open_config
    cases hf : first_openable env.fileStatus (config_filepaths env) with
    | none => rw [hf] at hs; simp at hs
    | some w =>
      obtain ⟨p2, d2⟩ := w
      cases hd : env.xdg_data_home <;> simp [OpenResult.isSome]

/-- Document used by the C4 witness. -/
def c4Doc : Doc :=
  ⟨[], [], [], Option.none, Option.none, Option.none, Option.none, Option.none⟩

/-- Environment of the C4 witness: a CLI path that does not open, and a
config-home candidate that opens and parses. -/
def c4Env : OpenEnv :=
  ⟨some ("/tmp/missing.conf".toList), some ("/home/user/.config".toList), Option.none,
   fun p => if p = ("/home/user/.config/dwm.conf".toList) then .openParse c4Doc
     else .cannotOpen⟩

/-- C4 witness: with the winner at index 1, at most two candidates are
probed (the third candidate, config-home/dwm/dwm.conf, is never opened). -/
theorem open_config_probes_stop_at_winner_witness :
    (config_filepaths c4Env)[1]? = some ("/home/user/.config/dwm.conf".toList) ∧
    probed_count c4Env.fileStatus (config_filepaths c4Env) ≤ 2 :=
  ⟨by decide,
   (open_config_probes_stop_at_winner c4Env 1 ("/home/user/.config/dwm.conf".toList) c4Doc
      (by decide) (by decide)).1⟩

/-! C5: the "super, tag, 5" scenario. -/

/-- C5: parsing the keybind line "super, tag, 5", whose tag action declares
kind ARG_TYPE_INT with range [-1, TAGMASK] and TAGMASK = 511, succeeds
whenever the X keysym resolver accepts the trigger token "super", and the
resulting binding stores integer argument 5; the clamp leaves 5 unchanged
and emits no diagnostic since 5 does not exceed TAGMASK. -/
theorem keybind_super_tag_5 (xk : List Char → Nat) (xl : Nat → Nat)
    (h : xk ("super".toList) ≠ 0) :
    parse_keybind xk xl 4 ("super, tag, 5".toList) =
      .ok ⟨0, xl (xk ("super".toList)), .tag, .ARG_TYPE_INT, ArgVal.int 5⟩ ∧
    clamp_range_int 5 (-1) tagmaskVal = (5, 0) := by
  constructor
  · have h1 : parse_keybind xk xl 4 ("super, tag, 5".toList) =
        finish_keybind .tag .ARG_TYPE_INT (ArgVal.int 5) 0
          (parse_keybind_keysym xk xl ("super".toList)) := rfl
    rw [h1]
    unfold parse_keybind_keysym finish_keybind
    rw [if_neg h]
  · decide

/-- Concrete keysym resolver for the C5 witness (X11 is external; this stands
for an XStringToKeysym that resolves "super"). -/
def xkC5 (s : List Char) : Nat := if s = ("super".toList) then 65515 else 0

/-- Concrete XConvertCase lower-case map for the C5 witness. -/
def xlC5 (k : Nat) : Nat := k

/-- C5 witness: the theorem applied at the concrete resolver. -/
theorem keybind_super_tag_5_witness :
    xkC5 ("super".toList) ≠ 0 ∧
    parse_keybind xkC5 xlC5 4 ("super, tag, 5".toList) =
      .ok ⟨0, xlC5 (xkC5 ("super".toList)), .tag, .ARG_TYPE_INT, ArgVal.int 5⟩ :=
  ⟨by decide, (keybind_super_tag_5 xkC5 xlC5 (by decide)).1⟩

/-! C2 and C3: the backup gate and the return contract of parse_config. -/

/-- Hardcoded config.h defaults used by the concrete parse_config runs (their
exact values are immaterial to the properties below). -/
def exDefaults : Defaults :=
  ⟨⟨true, true, true, false, 1, 32, 1, 60, 0.55⟩, [], [], [],
   [("1".toList), ("2".toList), ("3".toList), ("4".toList), ("5".toList), ("6".toList),
    ("7".toList), ("8".toList), ("9".toList)],
   ⟨("monospace:size=10".toList), ("#bbbbbb".toList), ("#222222".toList), ("#444444".toList),
    ("#eeeeee".toList), ("#005577".toList), ("#005577".toList)⟩⟩

/-- Document of the C2 counterexample: everything parses cleanly (one valid
buttonbind, empty rules, tag-names and themes lists) but the keybinds
setting is absent, so the hardcoded default keybinds stay loaded. -/
def c2Doc : Doc :=
  ⟨[], [], [], Option.none, some [("super+leftclick, client, killclient".toList)],
   some [], some [], some []⟩

/-- Environment of the C2 counterexample: both XDG directories resolve (so
the backup-candidate comparison of the provenance check is well defined) and
the CLI-provided user config is the first candidate and parses. -/
def c2Env : OpenEnv :=
  ⟨some ("/home/user/myconf.conf".toList), some ("/home/user/.config".toList),
   some ("/home/user/.local/share".toList),
   fun p => if p = ("/home/user/myconf.conf".toList) then .openParse c2Doc else .cannotOpen⟩

/-- C2 counterexample: a parse run with zero failures whose winning candidate
is the user's own file (not the backup, not the system fallback) completes
with a defined outcome and attempts no backup, because the absent keybinds
section left the hardcoded default keybinds loaded.  This refutes the
claimed "if and only if". -/
theorem backup_skipped_for_clean_user_config :
    (parse_config (fun _ => 0) (fun k => k) c2Env exDefaults).map (fun r => r.ret) = some 0 ∧
    (parse_config (fun _ => 0) (fun k => k) c2Env exDefaults).map
        (fun r => r.fallback_config_loaded) = some false ∧
    (parse_config (fun _ => 0) (fun k => k) c2Env exDefaults).map
        (fun r => r.config_filepath) = some (some ("/home/user/myconf.conf".toList)) ∧
    (parse_config (fun _ => 0) (fun k => k) c2Env exDefaults).map
        (fun r => r.default_keybinds_loaded) = some true ∧
    (parse_config (fun _ => 0) (fun k => k) c2Env exDefaults).map
        (fun r => r.backupAttempted) = some false := by
  refine ⟨by decide, by decide, by decide, by decide, by decide⟩

/-- C2 (amended): whenever parse_config completes with a defined outcome, the
backup write was attempted if and only if the total failure count is zero
AND no fallback config was loaded AND neither the default keybinds nor the
default buttonbinds were left loaded (the code also withholds the backup
when the user's file itself supplied no binds). -/
theorem backup_attempted_iff_clean_and_user_binds (xk : List Char → Nat) (xl : Nat → Nat)
    (env : OpenEnv) (d : Defaults) :
    ∀ r, parse_config xk xl env d = some r →
      (r.backupAttempted = true ↔
        (r.ret = 0 ∧ r.fallback_config_loaded = false ∧
         r.default_keybinds_loaded = false ∧ r.default_buttonbinds_loaded = false)) := by
  intro r hr
  unfold parse_config at hr
  cases h : open_config env with
  | noConfig =>
    rw [h] at hr
    simp only [Option.some.injEq] at hr
    subst hr
    simp
  | nullBackupCompare p doc =>
    rw [h] at hr
    exact absurd hr (by simp)
  | opened p fb doc =>
    rw [h] at hr
    simp only [Option.some.injEq] at hr
    subst hr
    simp only [Bool.and_eq_true, beq_iff_eq, Bool.not_eq_eq_eq_not, Bool.not_true,
      Bool.or_eq_false_iff]
    tauto

/-- Outcome of the C2 witness run (the defined result parse_config produces
on the counterexample environment). -/
def c2Outcome : ParseOutcome :=
  (parse_config (fun _ => 0) (fun k => k) c2Env exDefaults).getD
    ⟨-1, false, false, true, true, true, Option.none, exDefaults.settings, 4,
     exDefaults.keybinds, exDefaults.buttonbinds, exDefaults.rules, exDefaults.tags,
     exDefaults.theme⟩

/-- C2 witness: the amended gate characterization applied to the concrete
completed run. -/
theorem backup_attempted_iff_clean_and_user_binds_witness :
    parse_config (fun _ => 0) (fun k => k) c2Env exDefaults = some c2Outcome ∧
    (c2Outcome.backupAttempted = true ↔
      (c2Outcome.ret = 0 ∧ c2Outcome.fallback_config_loaded = false ∧
       c2Outcome.default_keybinds_loaded = false ∧
       c2Outcome.default_buttonbinds_loaded = false)) :=
  ⟨rfl, backup_attempted_iff_clean_and_user_binds (fun _ => 0) (fun k => k) c2Env exDefaults
     c2Outcome rfl⟩

/-- Document of the C3 counterexample (same clean shape as the C2 one, as a
separate definition since the two claims stand independently). -/
def c3Doc : Doc :=
  ⟨[], [], [], Option.none, some [("super+leftclick, client, killclient".toList)],
   some [], some [], some []⟩

/-- Environment of the C3 counterexample: both XDG directories resolve (the
backup candidate exists but does not open), and only the system fallback
/etc/dwm/dwm.conf opens and parses. -/
def c3Env : OpenEnv :=
  ⟨Option.none, some ("/home/user/.config".toList), some ("/home/user/.local/share".toList),
   fun p => if p = ("/etc/dwm/dwm.conf".toList) then .openParse c3Doc else .cannotOpen⟩

/-- C3 counterexample: a clean parse of the system fallback completes with a
defined outcome, returns zero, yet no backup is attempted (and the parse was
not of the user's config), refuting "zero exactly when the parse was a fully
successful parse of the user's config and the backup was written". -/
theorem zero_return_without_backup :
    (parse_config (fun _ => 0) (fun k => k) c3Env exDefaults).map (fun r => r.ret) = some 0 ∧
    (parse_config (fun _ => 0) (fun k => k) c3Env exDefaults).map
        (fun r => r.fallback_config_loaded) = some true ∧
    (parse_config (fun _ => 0) (fun k => k) c3Env exDefaults).map
        (fun r => r.backupAttempted) = some false := by
  refine ⟨by decide, by decide, by decide⟩

/-- C3 (amended): whenever _open_config reports no loadable candidate,
parse_config completes and returns exactly -1; every completed run returns a
negative value only in that no-config case; and whenever a candidate was
opened with a defined provenance flag, the completed run returns the
accumulated section failure total, which is never negative — so zero is
returned exactly when the parse accumulated zero failures, whether or not a
backup was attempted or written. -/
theorem parse_config_return_contract (xk : List Char → Nat) (xl : Nat → Nat)
    (env : OpenEnv) (d : Defaults) :
    (open_config env = .noConfig →
      ∃ r, parse_config xk xl env d = some r ∧ r.ret = -1) ∧
    (∀ r, parse_config xk xl env d = some r → (r.ret < 0 ↔ open_config env = .noConfig)) ∧
    (∀ p fb doc, open_config env = .opened p fb doc →
      ∃ r, parse_config xk xl env d = some r ∧
        r.ret = (parse_sections xk xl doc d).total_errors ∧ 0 ≤ r.ret) := by
  cases h : open_config env with
  | noConfig =>
    refine ⟨?_, ?_, ?_⟩
    · intro _
      have hdone : parse_config xk xl env d = some ⟨-1, false, false, true, true, true,
          Option.none, d.settings, 4, d.keybinds, d.buttonbinds, d.rules, d.tags, d.theme⟩ := by
        unfold parse_config
        rw [h]
      exact ⟨_, hdone, rfl⟩
    · intro r hr
      unfold parse_config at hr
      rw [h] at hr
      simp only [Option.some.injEq] at hr
      subst hr
      exact iff_of_true (by norm_num) rfl
    · intro p fb doc hc
      exact absurd hc (by simp)
  | nullBackupCompare p0 doc0 =>
    refine ⟨?_, ?_, ?_⟩
    · intro hc
      exact absurd hc (by simp)
    · intro r hr
      unfold parse_config at hr
      rw [h] at hr
      exact absurd hr (by simp)
    · intro p fb doc hc
      exact absurd hc (by simp)
  | opened p0 fb0 doc0 =>
    have hr0 : parse_config xk xl env d = some
        ⟨(parse_sections xk xl doc0 d).total_errors,
         (parse_sections xk xl doc0 d).total_errors == 0 &&
           !((parse_sections xk xl doc0 d).default_keybinds_loaded ||
             (parse_sections xk xl doc0 d).default_buttonbinds_loaded || fb0),
         fb0, (parse_sections xk xl doc0 d).default_keybinds_loaded,
         (parse_sections xk xl doc0 d).default_buttonbinds_loaded,
         (parse_sections xk xl doc0 d).default_rules_loaded, some p0,
         (parse_sections xk xl doc0 d).settings, (parse_sections xk xl doc0 d).max_keys,
         (parse_sections xk xl doc0 d).keybind_array,
         (parse_sections xk xl doc0 d).buttonbind_array,
         (parse_sections xk xl doc0 d).rule_array, (parse_sections xk xl doc0 d).tags,
         (parse_sections xk xl doc0 d).theme⟩ := by
      unfold parse_config
      rw [h]
    have hnn := parse_sections_total_errors_nonneg xk xl doc0 d
    refine ⟨?_, ?_, ?_⟩
    · intro hc
      exact absurd hc (by simp)
    · intro r hr
      rw [hr0] at hr
      simp only [Option.some.injEq] at hr
      subst hr
      exact iff_of_false (by simp only []; omega) (by simp)
    · intro p fb doc hc
      simp only [OpenResult.opened.injEq] at hc
      obtain ⟨h1, h2, h3⟩ := hc
      subst h3
      exact ⟨_, hr0, rfl, hnn⟩

/-- Environment of the C3 witness no-config case: the XDG directories
resolve but no candidate at all opens. -/
def c3NoneEnv : OpenEnv :=
  ⟨Option.none, some ("/home/user/.config".toList), some ("/home/user/.local/share".toList),
   fun _ => .cannotOpen⟩

/-- C3 witness: the amended contract applied to an environment where nothing
loads (return -1) and to one where the fallback loads cleanly (return equal
to the zero failure total, which is nonnegative). -/
theorem parse_config_return_contract_witness :
    (∃ r, parse_config (fun _ => 0) (fun k => k) c3NoneEnv exDefaults = some r ∧
       r.ret = -1) ∧
    (∃ r, parse_config (fun _ => 0) (fun k => k) c3Env exDefaults = some r ∧
       r.ret = (parse_sections (fun _ => 0) (fun k => k) c3Doc exDefaults).total_errors ∧
       0 ≤ r.ret) :=
  ⟨(parse_config_return_contract (fun _ => 0) (fun k => k) c3NoneEnv exDefaults).1 (by decide),
   (parse_config_return_contract (fun _ => 0) (fun k => k) c3Env exDefaults).2.2
     ("/etc/dwm/dwm.conf".toList) true c3Doc (by decide)⟩

/-! C1: success condition of the keybind grammar. -/

/-- C1: for every binding line of valid shape (both required fields present
and non-empty, the modifier chain non-empty and within the max_keys bound),
the keybind parse succeeds if and only if the action token resolves in the
function alias table, the declared argument kind is satisfied (the argument
field lexes fully as that kind with no trailing characters whenever the kind
is not ARG_TYPE_NONE), every modifier token resolves in the modifier alias
table, and the trigger token resolves as a key symbol; failure of any one of
these makes the whole bind fail. -/
theorem keybind_parse_success_iff
    (xk : List Char → Nat) (xl : Nat → Nat) (max_keys : Nat) (input mtl fn : List Char)
    (mods : List (List Char)) (leftover : Option (List Char))
    (h1 : (bind_line_tokens input)[0]? = some mtl) (hmtl : mtl ≠ [])
    (h2 : ((bind_line_tokens input)[1]?).map trim_whitespace = some fn) (hfn : fn ≠ [])
    (hsplit : split_modifier_tokens max_keys (strtokTokens '+' mtl) = (mods, leftover))
    (hone : mods ≠ [])
    (hmany : ¬(mods.length = max_keys ∧ leftover.isSome)) :
    exceptOk (parse_keybind xk xl max_keys input) = true ↔
      ∃ f ty mn mx, parse_bind_function fn = some (f, ty, mn, mx) ∧
        bind_argument_step ty (((bind_line_tokens input)[2]?).map trim_whitespace) mn mx ≠
          Option.none ∧
        resolve_modifier_chain mods.dropLast 0 ≠ Option.none ∧
        xk (mods.getLast hone) ≠ 0 := by
  have hm : mtl.isEmpty = false := by
    cases mtl
    · exact absurd rfl hmtl
    · rfl
  have hf : fn.isEmpty = false := by
    cases fn
    · exact absurd rfl hfn
    · rfl
  have hlen : ¬(mods.length = 0) := fun hz => hone (List.length_eq_zero.mp hz)
  have hlast : mods.getLast? = some (mods.getLast hone) := List.getLast?_eq_getLast mods hone
  unfold parse_keybind parse_keybind_core
  rw [h1, h2]
  simp only [hm, hf, Bool.or_self, Bool.false_eq_true, if_false]
  rcases hpf : parse_bind_function fn with _ | ⟨f, ty, mn, mx⟩
  · simp [exceptOk, hpf]
  · rcases harg : bind_argument_step ty (((bind_line_tokens input)[2]?).map trim_whitespace)
        mn mx with _ | arg
    · simp only [harg]
      simp only [exceptOk, Option.some.injEq, Prod.mk.injEq]
      constructor
      · intro hfa
        exact absurd hfa (by simp)
      · rintro ⟨a, b, c, dd, ⟨he1, he2, he3, he4⟩, hbb, _, _⟩
        subst he2 he3 he4
        exact absurd harg hbb
    · rcases hres : resolve_modifier_chain mods.dropLast 0 with _ | mask
      · simp [exceptOk, hpf, harg, hres, hsplit, hlen, hmany]
      · by_cases hk : xk (mods.getLast hone) = 0
        · simp [exceptOk, hpf, harg, hres, hsplit, hlen, hmany, hlast, finish_keybind,
            parse_keybind_keysym, hk]
        · simp only [harg, hsplit, hlast, hres]
          simp only [exceptOk, finish_keybind, parse_keybind_keysym, if_neg hk, hlen, hmany,
            if_false, ite_false]
          exact iff_of_true trivial ⟨f, ty, mn, mx, rfl, by simp [harg], by simp, hk⟩

/-- Concrete keysym resolver for the C1 witness. -/
def xkC1 (s : List Char) : Nat := if s = ("q".toList) then 113 else 0

/-- Concrete XConvertCase lower-case map for the C1 witness. -/
def xlC1 (k : Nat) : Nat := k

/-- C1 witness: the theorem applied to "super+shift+q, killclient" with a
resolver that accepts the trigger q. -/
theorem keybind_parse_success_iff_witness :
    (bind_line_tokens ("super+shift+q, killclient".toList))[0]? =
        some ("super+shift+q".toList) ∧
    split_modifier_tokens 4 (strtokTokens '+' ("super+shift+q".toList)) =
      ([("super".toList), ("shift".toList), ("q".toList)], Option.none) ∧
    exceptOk (parse_keybind xkC1 xlC1 4 ("super+shift+q, killclient".toList)) = true :=
  ⟨by decide, by decide,
   (keybind_parse_success_iff xkC1 xlC1 4 ("super+shift+q, killclient".toList)
      ("super+shift+q".toList) ("killclient".toList)
      [("super".toList), ("shift".toList), ("q".toList)] Option.none
      (by decide) (by decide) (by decide) (by decide) (by decide) (by decide) (by decide)).mpr
     ⟨.killclient, .ARG_TYPE_NONE, 0, 0, by decide, by decide, by decide, by decide⟩⟩

/-! Shared machinery for C6. -/
/-- Count of '+' chunks that remain non-empty after whitespace trimming. -/
def trimmed_token_count (chunks : List (List Char)) : Nat :=
  (chunks.filter (fun c => !(trim_whitespace c).isEmpty)).length

/-- When more trimmed-non-empty chunks exist than the budget allows, the
splitting loop stops with exactly budget tokens collected and a leftover
chunk in hand. -/
theorem split_modifier_tokens_overflow (chunks : List (List Char)) :
    ∀ budget : Nat, budget < trimmed_token_count chunks →
      (split_modifier_tokens budget chunks).1.length = budget ∧
      (split_modifier_tokens budget chunks).2.isSome = true := by
  induction chunks with
  | nil =>
    intro budget hb
    simp [trimmed_token_count] at hb
  | cons t rest ih =>
    intro budget hb
    cases budget with
    | zero => simp [split_modifier_tokens]
    | succ b =>
      by_cases he : (trim_whitespace t).isEmpty
      · have hc : trimmed_token_count (t :: rest) = trimmed_token_count rest := by
          simp [trimmed_token_count, List.filter_cons, he]
        rw [hc] at hb
        have := ih (b + 1) hb
        simpa [split_modifier_tokens, he] using this
      · have hc : trimmed_token_count (t :: rest) = trimmed_token_count rest + 1 := by
          simp [trimmed_token_count, List.filter_cons, he]
        rw [hc] at hb
        have := ih b (by omega)
        simp only [split_modifier_tokens, he, if_false]
        simp only [Bool.false_eq_true, if_false]
        constructor
        · simp [this.1]
        · simpa using this.2

/-- When every chunk is non-whitespace and they fit within the budget, the
loop consumes them all with no leftover. -/
theorem split_modifier_tokens_all_fit (chunks : List (List Char)) :
    ∀ budget : Nat, (∀ c ∈ chunks, (trim_whitespace c).isEmpty = false) →
      chunks.length ≤ budget →
      split_modifier_tokens budget chunks = (chunks.map trim_whitespace, Option.none) := by
  induction chunks with
  | nil =>
    intro budget _ _
    cases budget <;> rfl
  | cons t rest ih =>
    intro budget hall hlen
    cases budget with
    | zero => simp at hlen
    | succ b =>
      have ht : (trim_whitespace t).isEmpty = false := hall t (by simp)
      have hr : ∀ c ∈ rest, (trim_whitespace c).isEmpty = false :=
        fun c hc => hall c (by simp [hc])
      have := ih b hr (by simpa using hlen)
      simp [split_modifier_tokens, ht, this]

/-! C6: too many chained modifier tokens. -/

/-- C6 (amended): when the first comma-separated field splits on '+' into
more than max_keys tokens that are non-empty after whitespace trimming, the
bind always fails, for keybinds and buttonbinds alike; the reported error is
"too many chained modifiers" for the buttonbind parser whenever its required
fields are present and non-empty, and for the keybind parser whenever
additionally the action token resolves and its argument (when required)
parses, since the keybind parser checks those before splitting the chain.  A
first field of exactly max_keys '+'-chunks, all non-whitespace, never
produces the too-many error.  (Whitespace-only chunks are skipped without
counting, so "non-empty tokens" must be read after trimming: see the
counterexample.) -/
theorem too_many_modifier_tokens(xk : List Char → Nat) (xl : Nat → Nat) (max_keys : Nat) (input mtl : List Char)
    (h1 : (bind_line_tokens input)[0]? = some mtl) :
    (max_keys < trimmed_token_count (strtokTokens '+' mtl) →
      exceptOk (parse_keybind xk xl max_keys input) = false ∧
      exceptOk (parse_buttonbind max_keys input) = false) ∧
    (0 < max_keys → max_keys < trimmed_token_count (strtokTokens '+' mtl) →
      ∀ fn f ty mn mx, ((bind_line_tokens input)[1]?).map trim_whitespace = some fn → fn ≠ [] →
        parse_bind_function fn = some (f, ty, mn, mx) →
        bind_argument_step ty (((bind_line_tokens input)[2]?).map trim_whitespace) mn mx ≠
          Option.none →
        parse_keybind xk xl max_keys input = .error .tooManyKeys) ∧
    (0 < max_keys → max_keys < trimmed_token_count (strtokTokens '+' mtl) →
      ∀ click fnb, ((bind_line_tokens input)[1]?).map trim_whitespace = some click →
        click ≠ [] → ((bind_line_tokens input)[2]?).map trim_whitespace = some fnb → fnb ≠ [] →
        parse_buttonbind max_keys input = .error .tooManyKeys) ∧
    ((∀ c ∈ strtokTokens '+' mtl, (trim_whitespace c).isEmpty = false) →
      (strtokTokens '+' mtl).length = max_keys →
      parse_keybind xk xl max_keys input ≠ .error .tooManyKeys ∧
      parse_buttonbind max_keys input ≠ .error .tooManyKeys) := by
  refine ⟨?_, ?_, ?_, ?_⟩
  · -- overflow: both parsers fail whatever the other fields hold
    intro hover
    have hov := split_modifier_tokens_overflow (strtokTokens '+' mtl) max_keys hover
    constructor
    · unfold parse_keybind parse_keybind_core
      rw [h1]
      rcases hx : ((bind_line_tokens input)[1]?).map trim_whitespace with _ | fn
      · simp [exceptOk]
      · by_cases hcond : (mtl.isEmpty || fn.isEmpty) = true
        · simp [hcond, exceptOk]
        · simp only [Bool.not_eq_true] at hcond
          simp only [hcond, Bool.false_eq_true, if_false]
          rcases hpf : parse_bind_function fn with _ | ⟨f, ty, mn, mx⟩
          · simp [hpf, exceptOk]
          · simp only [hpf]
            rcases harg : bind_argument_step ty
                (((bind_line_tokens input)[2]?).map trim_whitespace) mn mx with _ | arg
            · simp [harg, exceptOk]
            · simp only [harg]
              by_cases hz : (split_modifier_tokens max_keys (strtokTokens '+' mtl)).1 = []
              · simp [hz, exceptOk]
              · rw [if_neg (by simpa using hz)]
                rw [if_pos ⟨hov.1, hov.2⟩]
                simp [exceptOk]
    · unfold parse_buttonbind parse_buttonbind_core
      rw [h1]
      rcases hx : ((bind_line_tokens input)[1]?).map trim_whitespace with _ | ck
      · simp [exceptOk]
      · rcases hy : ((bind_line_tokens input)[2]?).map trim_whitespace with _ | fnb
        · simp [exceptOk]
        · by_cases hcond : (mtl.isEmpty || fnb.isEmpty || ck.isEmpty) = true
          · simp [hcond, exceptOk]
          · simp only [Bool.not_eq_true] at hcond
            simp only [hcond, Bool.false_eq_true, if_false]
            by_cases hz : (split_modifier_tokens max_keys (strtokTokens '+' mtl)).1 = []
            · simp [hz, exceptOk]
            · rw [if_neg (by simpa using hz)]
              rw [if_pos ⟨hov.1, hov.2⟩]
              simp [exceptOk]
  · -- overflow with parsed action and argument: keybind reports tooManyKeys
    intro hpos hover fn f ty mn mx hfn hfne hpf hargne
    have hov := split_modifier_tokens_overflow (strtokTokens '+' mtl) max_keys hover
    have hmtl : mtl.isEmpty = false := by
      cases mtl with
      | nil => simp [strtokTokens, splitOnChar, trimmed_token_count] at hover
      | cons c cs => rfl
    have hfne2 : fn.isEmpty = false := by
      cases fn with
      | nil => exact absurd rfl hfne
      | cons c cs => rfl
    rcases harg : bind_argument_step ty (((bind_line_tokens input)[2]?).map trim_whitespace)
        mn mx with _ | arg
    · exact absurd harg hargne
    · unfold parse_keybind parse_keybind_core
      rw [h1, hfn]
      simp only [hmtl, hfne2, Bool.or_self, Bool.false_eq_true, if_false]
      rw [hpf]
      simp only [harg]
      have hz : ¬((split_modifier_tokens max_keys (strtokTokens '+' mtl)).1 = []) := by
        intro hh
        rw [hh] at hov
        simp at hov
        omega
      rw [if_neg (by simpa using hz)]
      rw [if_pos ⟨hov.1, hov.2⟩]
  · -- overflow with present fields: buttonbind reports tooManyKeys
    intro hpos hover click fnb hck hckne hfn hfne
    have hov := split_modifier_tokens_overflow (strtokTokens '+' mtl) max_keys hover
    have hmtl : mtl.isEmpty = false := by
      cases mtl with
      | nil => simp [strtokTokens, splitOnChar, trimmed_token_count] at hover
      | cons c cs => rfl
    have hckne2 : click.isEmpty = false := by
      cases click with
      | nil => exact absurd rfl hckne
      | cons c cs => rfl
    have hfne2 : fnb.isEmpty = false := by
      cases fnb with
      | nil => exact absurd rfl hfne
      | cons c cs => rfl
    unfold parse_buttonbind parse_buttonbind_core
    rw [h1, hck, hfn]
    simp only [hmtl, hckne2, hfne2, Bool.or_self, Bool.false_eq_true, if_false]
    have hz : ¬((split_modifier_tokens max_keys (strtokTokens '+' mtl)).1 = []) := by
      intro hh
      rw [hh] at hov
      simp at hov
      omega
    rw [if_neg (by simpa using hz)]
    rw [if_pos ⟨hov.1, hov.2⟩]
  · -- exactly max_keys non-whitespace chunks: never the tooManyKeys error
    intro hall hlenEq
    have hfit := split_modifier_tokens_all_fit (strtokTokens '+' mtl) max_keys hall (by omega)
    constructor
    · unfold parse_keybind parse_keybind_core
      rw [h1]
      rcases hx : ((bind_line_tokens input)[1]?).map trim_whitespace with _ | fn
      · simp
      · by_cases hcond : (mtl.isEmpty || fn.isEmpty) = true
        · simp [hcond]
        · simp only [Bool.not_eq_true] at hcond
          simp only [hcond, Bool.false_eq_true, if_false]
          rcases hpf : parse_bind_function fn with _ | ⟨f, ty, mn, mx⟩
          · simp [hpf]
          · simp only [hpf]
            rcases harg : bind_argument_step ty
                (((bind_line_tokens input)[2]?).map trim_whitespace) mn mx with _ | arg
            · simp [harg]
            · simp only [harg]
              rw [hfit]
              by_cases hz : ((strtokTokens '+' mtl).map trim_whitespace) = []
              · simp [hz]
              · rw [if_neg (by simpa using hz)]
                rw [if_neg (by simp)]
                rcases hres : resolve_modifier_chain
                    ((strtokTokens '+' mtl).map trim_whitespace).dropLast 0 with _ | mask
                · simp [hres]
                · simp only [hres]
                  rcases hlast : ((strtokTokens '+' mtl).map trim_whitespace).getLast?
                      with _ | trig
                  · simp [hlast]
                  · simp only [hlast]
                    unfold finish_keybind parse_keybind_keysym
                    by_cases hk : xk trig = 0
                    · simp [hk]
                    · simp [hk]
    · unfold parse_buttonbind parse_buttonbind_core
      rw [h1]
      rcases hx : ((bind_line_tokens input)[1]?).map trim_whitespace with _ | ck
      · simp
      · rcases hy : ((bind_line_tokens input)[2]?).map trim_whitespace with _ | fnb
        · simp
        · by_cases hcond : (mtl.isEmpty || fnb.isEmpty || ck.isEmpty) = true
          · simp [hcond]
          · simp only [Bool.not_eq_true] at hcond
            simp only [hcond, Bool.false_eq_true, if_false]
            rw [hfit]
            by_cases hz : ((strtokTokens '+' mtl).map trim_whitespace) = []
            · simp [hz]
            · rw [if_neg (by simpa using hz)]
              rw [if_neg (by simp)]
              rcases hres : resolve_modifier_chain
                  ((strtokTokens '+' mtl).map trim_whitespace).dropLast 0 with _ | mask
              · simp [hres]
              · simp only [hres]
                rcases hlast : ((strtokTokens '+' mtl).map trim_whitespace).getLast?
                    with _ | trig
                · simp [hlast]
                · simp only [hlast]
                  rcases hbtn : parse_buttonbind_button trig with _ | btn
                  · simp [hbtn]
                  · simp only [hbtn]
                    rcases hclk : parse_buttonbind_click ck with _ | clk
                    · simp [hclk]
                    · simp only [hclk]
                      rcases hpf : parse_bind_function fnb with _ | ⟨f, ty, mn, mx⟩
                      · simp [hpf]
                      · simp only [hpf]
                        rcases harg : bind_argument_step ty
                            (((bind_line_tokens input)[3]?).map trim_whitespace) mn mx
                            with _ | arg
                        · simp [harg]
                        · simp [harg]

/-- Concrete keysym resolver for the C6 counterexample. -/
def xkC6a (s : List Char) : Nat := if s = ("q".toList) then 113 else 0

/-- Concrete XConvertCase lower-case map for the C6 counterexample. -/
def xlC6a (k : Nat) : Nat := k

/-- C6 counterexample: the first field of
"alt+ +ctrl+shift+q, killclient" splits on '+' into five non-empty tokens
(the second being the single space " ") while max_keys is 4, yet the keybind
parser succeeds: the whitespace-only chunk is skipped without being counted,
so no "too many chained modifiers" error is reported and the bind does not
fail, refuting the claim as stated. -/
theorem too_many_tokens_counterexample :
    (bind_line_tokens ("alt+ +ctrl+shift+q, killclient".toList))[0]? =
        some ("alt+ +ctrl+shift+q".toList) ∧
    (strtokTokens '+' ("alt+ +ctrl+shift+q".toList)).length = 5 ∧
    (∀ c ∈ strtokTokens '+' ("alt+ +ctrl+shift+q".toList), c ≠ []) ∧
    exceptOk (parse_keybind xkC6a xlC6a 4 ("alt+ +ctrl+shift+q, killclient".toList)) = true := by
  refine ⟨by decide, by decide, by decide, by decide⟩

/-- Concrete keysym resolver for the C6 witness. -/
def xkC6b (s : List Char) : Nat := if s = ("q".toList) then 113 else 0

/-- Concrete XConvertCase lower-case map for the C6 witness. -/
def xlC6b (k : Nat) : Nat := k

/-- C6 witness: the amended theorem applied to a five-modifier chain, which
the keybind parser rejects with the too-many error. -/
theorem too_many_modifier_tokens_witness :
    4 < trimmed_token_count (strtokTokens '+' ("alt+ctrl+shift+super+q".toList)) ∧
    parse_keybind xkC6b xlC6b 4 ("alt+ctrl+shift+super+q, killclient".toList) =
      .error .tooManyKeys :=
  ⟨by decide,
   (too_many_modifier_tokens xkC6b xlC6b 4 ("alt+ctrl+shift+super+q, killclient".toList)
      ("alt+ctrl+shift+super+q".toList) (by decide)).2.1 (by decide) (by decide)
     ("killclient".toList) .killclient .ARG_TYPE_NONE 0 0 (by decide) (by decide) (by decide)
     (by decide)⟩


end DwmParser
